import Mathlib

/-!
Shallow embedding of the med-genie health-assistant front end.

The embedding covers the two parts of the repository the specification
documents: the vital-sign classifier of the vital-signs tracker component
(`normalRanges`, `getVitalStatus`, `handleManualEntry`, `renderVitalCard`)
and the conversation-orchestration handlers of the home page
(`handleSubmitQuestion`, `handleSaveProfile`, `handleCloseProfileModal`,
`handleFeedback`, `handleVitalSignsUpdate`).

JavaScript numbers are modelled as rationals (no reachable NaN/Infinity in
the modelled code paths, except for the object-to-number coercion in the
blood-pressure comparison, which is modelled explicitly by `jsLt`/`jsGt`).
Message ids, which in the source are template strings
`prefix-Date.now()` with a distinct prefix per creation site, are modelled
as an inductive type with one constructor per creation site, applied to the
timestamp.  The asynchronous question-answering collaborator is modelled by
an explicit outcome parameter (`AIOutcome`): the handler is a pure state
transition given the settled outcome of the single call it makes.
-/

namespace MedGenie

/-! ## Data model (src/src/lib/types.ts) -/

/-- The `gender` union type: male, female or other. -/
inductive Gender
  | male
  | female
  | other
deriving DecidableEq

/-- `emergencyContact` group inside `UserProfile`. -/
structure EmergencyContact where
  name : String
  phone : String
  relationship : String
deriving DecidableEq

/-- `UserProfile`: all fields optional. -/
structure UserProfile where
  age : Option ℚ := none
  weight : Option ℚ := none
  height : Option ℚ := none
  gender : Option Gender := none
  medicalHistory : Option String := none
  currentMedications : Option String := none
  allergies : Option String := none
  lifestyle : Option String := none
  symptoms : Option String := none
  emergencyContact : Option EmergencyContact := none
deriving DecidableEq

/-- `AISuggestedKey = keyof UserProfile`. -/
inductive AISuggestedKey
  | age
  | weight
  | height
  | gender
  | medicalHistory
  | currentMedications
  | allergies
  | lifestyle
  | symptoms
  | emergencyContact
deriving DecidableEq

/-- The keys of the `VitalSigns` interface (`keyof VitalSigns`). -/
inductive VitalKey
  | timestamp
  | heartRate
  | bloodPressure
  | temperature
  | oxygenSaturation
  | bloodGlucose
  | steps
  | sleepHours
deriving DecidableEq

/-- A runtime value stored in a vital-sign field: either a plain number or
the blood-pressure object with systolic and diastolic components.  (Manual
entry can also store a plain number under `bloodPressure`, so both shapes
can reach the classifier.) -/
inductive VitalValue
  | num (v : ℚ)
  | bp (systolic diastolic : ℚ)
deriving DecidableEq

/-- `VitalSigns`: a timestamped reading carrying a subset of measurement
fields. -/
structure VitalSigns where
  timestamp : ℚ
  heartRate : Option VitalValue := none
  bloodPressure : Option VitalValue := none
  temperature : Option VitalValue := none
  oxygenSaturation : Option VitalValue := none
  bloodGlucose : Option VitalValue := none
  steps : Option VitalValue := none
  sleepHours : Option VitalValue := none
deriving DecidableEq

/-- Property access `reading[key]` on a `VitalSigns` object. -/
def VitalSigns.field (r : VitalSigns) : VitalKey → Option VitalValue
  | .timestamp => some (.num r.timestamp)
  | .heartRate => r.heartRate
  | .bloodPressure => r.bloodPressure
  | .temperature => r.temperature
  | .oxygenSaturation => r.oxygenSaturation
  | .bloodGlucose => r.bloodGlucose
  | .steps => r.steps
  | .sleepHours => r.sleepHours

/-! ## Vital sign classifier (vital-signs tracker component) -/

/-- One entry of the `normalRanges` table: a scalar min/max range, or the
blood-pressure entry with separate systolic and diastolic ranges. -/
inductive RangeEntry
  | scalar (min max : ℚ)
  | bp (sysMin sysMax diaMin diaMax : ℚ)
deriving DecidableEq

/-- The `normalRanges` table.  `normalRanges[type]` is `undefined` exactly
for the `timestamp` key, which has no entry in the table. -/
def normalRanges : VitalKey → Option RangeEntry
  | .timestamp => none
  | .heartRate => some (.scalar 60 100)
  | .bloodPressure => some (.bp 90 140 60 90)
  | .temperature => some (.scalar 36.1 37.2)
  | .oxygenSaturation => some (.scalar 95 100)
  | .bloodGlucose => some (.scalar 70 140)
  | .steps => some (.scalar 0 10000)
  | .sleepHours => some (.scalar 7 9)

/-- JavaScript `value < r` where `value` may be a non-number: `ToNumber` of
a plain object (the blood-pressure object) is `NaN`, and every relational
comparison involving `NaN` is false. -/
def jsLt (value : VitalValue) (r : ℚ) : Bool :=
  match value with
  | .num v => decide (v < r)
  | .bp _ _ => false

/-- JavaScript `value > r`, with the same `NaN` rule as `jsLt`. -/
def jsGt (value : VitalValue) (r : ℚ) : Bool :=
  match value with
  | .num v => decide (v > r)
  | .bp _ _ => false

/-- The status union returned by `getVitalStatus`. -/
inductive VitalStatus
  | normal
  | warning
deriving DecidableEq

/-- `getVitalStatus(type, value)`.  The source branches on
`type === 'bloodPressure'` and casts the range to the blood-pressure entry;
since `normalRanges` yields the `bp` entry exactly for the `bloodPressure`
key, the branch is matched here on the shape of the entry.  In the
blood-pressure branch the source compares `value` itself (not
`value.systolic`) against the systolic bounds: `value > sysMax` then
`value < sysMin`.  In the scalar branch it compares `value < min` then
`value > max`. -/
def getVitalStatus (type : VitalKey) (value : VitalValue) : VitalStatus :=
  match normalRanges type with
  | none => .normal
  | some (.bp sysMin sysMax _ _) =>
      if jsGt value sysMax || jsLt value sysMin then .warning else .normal
  | some (.scalar min max) =>
      if jsLt value min || jsGt value max then .warning else .normal

/-- `renderVitalCard` computes `status = getVitalStatus(type, value)` where
`value` is the raw field of the reading; for the blood-pressure card the
call site passes `latestVitals.bloodPressure`, i.e. the whole
systolic/diastolic object. -/
def renderVitalCardStatus (type : VitalKey) (value : VitalValue) : VitalStatus :=
  getVitalStatus type value

/-! ## Claims about the classifier -/

/-- Claim C1 (code evaluation): as invoked by `renderVitalCard` on the
blood-pressure value — the systolic/diastolic object — `getVitalStatus`
returns `normal` for every systolic and diastolic component, including
systolic 150 / diastolic 70, because the source compares the object itself
(which coerces to `NaN`) against the systolic bounds, never the systolic
component.  This contradicts the claimed `warning` for systolic outside
[90, 140]. -/
theorem renderVitalCard_bloodPressure_always_normal (systolic diastolic : ℚ) :
    renderVitalCardStatus .bloodPressure (.bp systolic diastolic) = .normal := by
  simp [renderVitalCardStatus, getVitalStatus, normalRanges, jsLt, jsGt]

/-- Claim C7: for every scalar vital kind, `getVitalStatus` on a numeric
value returns `warning` iff the value is strictly below the configured
minimum or strictly above the configured maximum; in particular heart rate
72 is `normal` and heart rate 45 is `warning`. -/
theorem getVitalStatus_scalar_spec (v : ℚ) :
    (getVitalStatus .heartRate (.num v) = .warning ↔ v < 60 ∨ v > 100) ∧
    (getVitalStatus .temperature (.num v) = .warning ↔ v < 36.1 ∨ v > 37.2) ∧
    (getVitalStatus .oxygenSaturation (.num v) = .warning ↔ v < 95 ∨ v > 100) ∧
    (getVitalStatus .bloodGlucose (.num v) = .warning ↔ v < 70 ∨ v > 140) ∧
    (getVitalStatus .steps (.num v) = .warning ↔ v < 0 ∨ v > 10000) ∧
    (getVitalStatus .sleepHours (.num v) = .warning ↔ v < 7 ∨ v > 9) ∧
    (getVitalStatus .heartRate (.num v) = .normal ↔ ¬(v < 60 ∨ v > 100)) ∧
    getVitalStatus .heartRate (.num 72) = .normal ∧
    getVitalStatus .heartRate (.num 45) = .warning := by
  refine ⟨?_, ?_, ?_, ?_, ?_, ?_, ?_, by decide, by decide⟩ <;>
    simp [getVitalStatus, normalRanges, jsLt, jsGt] <;>
    exact ⟨fun h => (lt_or_le v _).imp id h, fun h h2 => h.resolve_left (not_lt.2 h2)⟩

/-- Witness for Claim C7 at the concrete heart rates 72 and 45 from the
spec. -/
theorem getVitalStatus_scalar_spec_witness :
    getVitalStatus .heartRate (.num 72) = .normal ∧
    getVitalStatus .heartRate (.num 45) = .warning :=
  ⟨(getVitalStatus_scalar_spec 72).2.2.2.2.2.2.2.1,
   (getVitalStatus_scalar_spec 45).2.2.2.2.2.2.2.2⟩

/-- Claim C10: `getVitalStatus` is total, returning only `normal` or
`warning` for every key and every value, and returns `normal` for any key
with no configured range (the `timestamp` key). -/
theorem getVitalStatus_total (type : VitalKey) (value : VitalValue) :
    (getVitalStatus type value = .normal ∨ getVitalStatus type value = .warning) ∧
    (normalRanges type = none → getVitalStatus type value = .normal) ∧
    getVitalStatus .timestamp value = .normal := by
  refine ⟨?_, ?_, by simp [getVitalStatus, normalRanges]⟩
  · cases h : getVitalStatus type value
    · exact Or.inl rfl
    · exact Or.inr rfl
  · intro h
    simp [getVitalStatus, h]

/-- Witness for Claim C10 at the `timestamp` key and value 0: the inner
implication is discharged at a concrete input. -/
theorem getVitalStatus_total_witness :
    getVitalStatus .timestamp (.num 0) = .normal :=
  (getVitalStatus_total .timestamp (.num 0)).2.1 rfl

/-! ## Conversation data model (src/src/lib/types.ts and the home page) -/

/-- Message ids in the source are template strings `prefix-Date.now()` with
a distinct prefix per creation site; they are modelled as one constructor
per creation site applied to the creation timestamp. -/
inductive MessageId
  | welcome
  | user (t : ℚ)
  | aiLoading (t : ℚ)
  | aiInfo (t : ℚ)
  | aiFollowupPrompt (t : ℚ)
  | aiResponse (t : ℚ)
  | aiError (t : ℚ)
  | systemProfileUpdated (t : ℚ)
  | aiLoadingRefine (t : ℚ)
  | aiRefinedResponse (t : ℚ)
  | aiRefinedFollowup (t : ℚ)
  | aiErrorRefine (t : ℚ)
  | systemProfileAck (t : ℚ)
  | aiCancelFollowup (t : ℚ)
deriving DecidableEq

/-- The `sender` union: user or ai. -/
inductive Sender
  | user
  | ai
deriving DecidableEq

/-- The `feedback` union: good or bad. -/
inductive Feedback
  | good
  | bad
deriving DecidableEq

/-- `ChatMessage`; the optional boolean flags default to false (absent) and
`feedback`/`originalQuestion` are optional.  `originalQuestion` is never
written by the handlers modelled here and is omitted. -/
structure ChatMessage where
  id : MessageId
  text : String
  sender : Sender
  timestamp : ℚ
  isLoading : Bool := false
  feedback : Option Feedback := none
  isFollowUpPrompt : Bool := false
deriving DecidableEq

/-- Request shape of `PersonalizedHealthQuestionAnsweringInput`. -/
structure AIInput where
  question : String
  age : Option ℚ := none
  weight : Option ℚ := none
  height : Option ℚ := none
  gender : Option Gender := none
  medicalHistory : Option String := none
  currentMedications : Option String := none
  allergies : Option String := none
  lifestyle : Option String := none
  symptoms : Option String := none
  vitalSigns : Option VitalSigns := none
deriving DecidableEq

/-- Response shape of `PersonalizedHealthQuestionAnsweringOutput`.  The
optional list fields are modelled as lists, absent being the empty list:
the source guards every use with `xs && xs.length > 0`, which treats the
two identically. -/
structure AIOutput where
  answer : String
  followUpQuestion : Option String := none
  suggestedKey : Option AISuggestedKey := none
  healthInsights : List String := []
  recommendations : List String := []
deriving DecidableEq

/-- Settled outcome of the awaited collaborator call: resolution with a
response, or rejection of any kind. -/
inductive AIOutcome
  | ok (result : AIOutput)
  | error

/-- The ambient React state of the home page that the handlers read and
write. -/
structure AppState where
  messages : List ChatMessage
  isLoading : Bool
  userProfile : UserProfile
  vitalSigns : List VitalSigns
  isProfileModalOpen : Bool
  currentAiFollowUpKey : Option AISuggestedKey
  lastUserQuestionForFollowUp : Option String
deriving DecidableEq

/-- Toast notifications emitted through `useToast`, identified by call
site. -/
inductive ToastKind
  | errorToast
  | refineErrorToast
  | furtherInfoToast
  | valueRequiredToast
  | vitalsUpdatedToast
deriving DecidableEq

/-- Result of running one handler: final state, the collaborator requests
made (in order), and the toasts emitted (in order). -/
structure StepResult where
  state : AppState
  calls : List AIInput
  toasts : List ToastKind

/-- JavaScript truthiness of an optional string: present and non-empty. -/
def jsTruthyStr (x : Option String) : Bool :=
  match x with
  | none => false
  | some s => decide (s ≠ "")

/-! ### Fixed message texts from the source -/

/-- Text of the pending turn of a submission. -/
def thinkingText : String := "Thinking..."

/-- Generic informational text used when the answer does not add to the
follow-up question. -/
def needMoreInformationText : String :=
  "To provide a more accurate response, I need a little more information."

/-- Generic failure text of a failed submission (the source text carries a
leading emoji, reproduced byte-for-byte as it appears in the file). -/
def submitErrorText : String :=
  "ðŸ˜” Sorry, I encountered an error. Please try again later."

/-- Acknowledgment appended before the refine call. -/
def profileUpdatedText : String :=
  "âœ… Your information has been updated. I'll use this to refine my answer."

/-- Text of the pending turn of a refine call. -/
def refiningText : String := "Refining answer..."

/-- Fallback answer text of the refine call when the answer is falsy. -/
def refineThanksText : String :=
  "Thank you for the information. How else can I help you?"

/-- Generic failure text of a failed refine call. -/
def refineErrorText : String :=
  "ðŸ˜” Sorry, I encountered an error while refining the answer. Please try again."

/-- Acknowledgment of a profile save with no pending follow-up. -/
def profileAckText : String :=
  "Your health information has been updated. How can I assist you now?"

/-- Neutral turn appended when the profile editor is cancelled while a
follow-up is pending and the suggested field is still empty. -/
def cancelFollowUpText : String :=
  "Okay, I understand. If you change your mind, you can update your info anytime. How else can I help you today?"

/-- Section header for health insights. -/
def insightsHeader : String := "\n\n**Health Insights:**\n"

/-- Section header for recommendations. -/
def recommendationsHeader : String := "\n\n**Recommendations:**\n"

/-- Bullet marker (the bullet character as it appears byte-for-byte in the
file). -/
def bulletMark : String := "â€¢ "

/-- Appends the bulleted insights and recommendations sections to the
answer text, each only when the list is non-empty, preserving order. -/
def withSections (answer : String) (healthInsights recommendations : List String) : String :=
  let t1 :=
    if healthInsights.length > 0 then
      answer ++ insightsHeader ++ String.intercalate "\n" (healthInsights.map (fun i => bulletMark ++ i))
    else answer
  if recommendations.length > 0 then
    t1 ++ recommendationsHeader ++ String.intercalate "\n" (recommendations.map (fun r => bulletMark ++ r))
  else t1

/-! ### Message constructions of the home page -/

/-- The user turn appended by `handleSubmitQuestion`. -/
def userMessage (now : ℚ) (question : String) : ChatMessage :=
  { id := .user now, text := question, sender := .user, timestamp := now }

/-- The pending turn appended by `handleSubmitQuestion`. -/
def aiLoadingMessage (now : ℚ) : ChatMessage :=
  { id := .aiLoading now, text := thinkingText, sender := .ai, timestamp := now, isLoading := true }

/-- The informational assistant turn of the follow-up path. -/
def aiInfoMessage (now : ℚ) (text : String) : ChatMessage :=
  { id := .aiInfo now, text := text, sender := .ai, timestamp := now }

/-- The follow-up prompt turn. -/
def aiFollowUpMessage (now : ℚ) (text : String) : ChatMessage :=
  { id := .aiFollowupPrompt now, text := text, sender := .ai, timestamp := now,
    isFollowUpPrompt := true }

/-- The terminal assistant answer turn. -/
def aiResponseMessage (now : ℚ) (text : String) : ChatMessage :=
  { id := .aiResponse now, text := text, sender := .ai, timestamp := now }

/-- The error turn of a failed submission. -/
def aiErrorMessage (now : ℚ) : ChatMessage :=
  { id := .aiError now, text := submitErrorText, sender := .ai, timestamp := now }

/-! ### Handlers -/

/-- `handleFeedback(messageId, feedback)`: maps over the previous messages,
replacing the feedback field of the matching message. -/
def handleFeedback (messages : List ChatMessage) (messageId : MessageId) (feedback : Feedback) :
    List ChatMessage :=
  messages.map (fun msg => if msg.id = messageId then { msg with feedback := some feedback } else msg)

/-- `handleVitalSignsUpdate(newVitals)`: prepends the new reading. -/
def handleVitalSignsUpdate (newVitals : VitalSigns) (prev : List VitalSigns) : List VitalSigns :=
  newVitals :: prev

/-- The request built from a question, a profile and the vital-signs store:
profile fields flattened, `vitalSigns` = `vitalSigns.length > 0 ?
vitalSigns[0] : undefined`. -/
def buildInput (question : String) (p : UserProfile) (vitalSigns : List VitalSigns) : AIInput :=
  { question := question
    age := p.age
    weight := p.weight
    height := p.height
    gender := p.gender
    medicalHistory := p.medicalHistory
    currentMedications := p.currentMedications
    allergies := p.allergies
    lifestyle := p.lifestyle
    symptoms := p.symptoms
    vitalSigns :=
      match vitalSigns with
      | [] => none
      | v :: _ => some v }

/-- `handleSubmitQuestion(question)`, as the state transition from the
sequence: append user turn, set loading, append pending turn, build the
request from the current profile and latest vitals, await the collaborator
(`outcome`), then on resolution remove the pending turn and either (with a
truthy `followUpQuestion`) append the informational and follow-up turns,
record the pending follow-up and open the profile editor, or (otherwise)
append the answer turn with its optional sections; on rejection remove the
pending turn, append the error turn and emit a toast.  `finally` clears the
loading flag. -/
def handleSubmitQuestion (now : ℚ) (question : String) (outcome : AIOutcome) (s : AppState) :
    StepResult :=
  let s1 : AppState := { s with messages := s.messages ++ [userMessage now question], isLoading := true }
  let s2 : AppState := { s1 with messages := s1.messages ++ [aiLoadingMessage now] }
  let input : AIInput := buildInput question s2.userProfile s2.vitalSigns
  match outcome with
  | .ok result =>
    let s3 : AppState :=
      { s2 with messages := s2.messages.filter (fun m => decide (m.id ≠ (aiLoadingMessage now).id)) }
    if jsTruthyStr result.followUpQuestion then
      let fq := result.followUpQuestion.getD ""
      let aiInfoMessageText :=
        if result.answer ≠ "" ∧ result.answer ≠ fq then result.answer else needMoreInformationText
      { state :=
          { s3 with
            messages := s3.messages ++ [aiInfoMessage now aiInfoMessageText]
              ++ [aiFollowUpMessage now fq]
            currentAiFollowUpKey := result.suggestedKey
            lastUserQuestionForFollowUp := some question
            isProfileModalOpen := true
            isLoading := false }
        calls := [input], toasts := [] }
    else
      let responseText := withSections result.answer result.healthInsights result.recommendations
      { state :=
          { s3 with
            messages := s3.messages ++ [aiResponseMessage now responseText]
            isLoading := false }
        calls := [input], toasts := [] }
  | .error =>
    let s3 : AppState :=
      { s2 with messages := s2.messages.filter (fun m => decide (m.id ≠ (aiLoadingMessage now).id)) }
    { state :=
        { s3 with
          messages := s3.messages ++ [aiErrorMessage now]
          isLoading := false }
      calls := [input], toasts := [.errorToast] }

/-! ## Claim C9: handleFeedback is a frame-preserving point update -/

/-- Claim C9: `handleFeedback` preserves length and order and every field
of every message, except that a message whose id matches has its feedback
field set to the given value; with no matching id the list is unchanged. -/
theorem handleFeedback_frame (messages : List ChatMessage) (messageId : MessageId) (fb : Feedback) :
    (handleFeedback messages messageId fb).length = messages.length ∧
    (∀ i : ℕ, (handleFeedback messages messageId fb)[i]? =
      (messages[i]?).map
        (fun m => if m.id = messageId then { m with feedback := some fb } else m)) ∧
    ((∀ m ∈ messages, m.id ≠ messageId) → handleFeedback messages messageId fb = messages) := by
  refine ⟨by simp [handleFeedback], fun i => by simp [handleFeedback], fun h => ?_⟩
  induction messages with
  | nil => rfl
  | cons a l ih =>
    have ha : a.id ≠ messageId := h a (List.mem_cons_self a l)
    have hl : ∀ m ∈ l, m.id ≠ messageId := fun m hm => h m (List.mem_cons_of_mem a hm)
    simp only [handleFeedback, List.map_cons, if_neg ha]
    simpa [handleFeedback] using ih hl

/-- Witness for Claim C9: the no-match case at a concrete list. -/
theorem handleFeedback_frame_witness :
    handleFeedback [{ id := .welcome, text := "hello", sender := .ai, timestamp := 0 }]
        (.user 1) .good
      = [{ id := .welcome, text := "hello", sender := .ai, timestamp := 0 }] :=
  (handleFeedback_frame [{ id := .welcome, text := "hello", sender := .ai, timestamp := 0 }]
      (.user 1) .good).2.2 (by decide)

/-! ## Reachable vital-signs stores -/

/-- The vital-signs store starts empty and is only ever written through
`handleVitalSignsUpdate`, with each new reading stamped with the current
time at creation, hence at least as late as every reading already stored. -/
inductive ReachableVitalSigns : List VitalSigns → Prop
  | nil : ReachableVitalSigns []
  | update (newVitals : VitalSigns) (prev : List VitalSigns)
      (hprev : ReachableVitalSigns prev)
      (hfresh : ∀ w ∈ prev, w.timestamp ≤ newVitals.timestamp) :
      ReachableVitalSigns (handleVitalSignsUpdate newVitals prev)

/-- In a reachable store the reading picked by `buildInput` (the head) has
the maximum timestamp. -/
theorem reachable_latest (q : String) (p : UserProfile) (l : List VitalSigns)
    (h : ReachableVitalSigns l) :
    ∀ v, (buildInput q p l).vitalSigns = some v →
      v ∈ l ∧ ∀ w ∈ l, w.timestamp ≤ v.timestamp := by
  cases h with
  | nil => intro v hv; simp [buildInput] at hv
  | update newVitals prev hprev hfresh =>
    intro v hv
    simp [buildInput, handleVitalSignsUpdate] at hv
    subst hv
    refine ⟨List.mem_cons_self _ _, ?_⟩
    intro w hw
    rcases List.mem_cons.mp hw with rfl | hw'
    · exact le_refl _
    · exact hfresh w hw'

/-! ## Helper lemmas about the pending-turn filter -/

/-- Filtering away an id that occurs nowhere in the list leaves the list
unchanged. -/
theorem filter_fresh (l : List ChatMessage) (x : MessageId) (h : ∀ m ∈ l, m.id ≠ x) :
    l.filter (fun m => decide (m.id ≠ x)) = l :=
  List.filter_eq_self.mpr (fun m hm => by simpa using h m hm)

/-- The filter step of `handleSubmitQuestion`: removing the pending turn
from the list that was just extended with the user turn and the pending
turn recovers exactly the prior list plus the user turn, provided the
pending id is fresh. -/
theorem submit_filter_step (now : ℚ) (question : String) (s : AppState)
    (hfresh : ∀ m ∈ s.messages, m.id ≠ MessageId.aiLoading now) :
    (s.messages ++ [userMessage now question] ++ [aiLoadingMessage now]).filter
        (fun m => decide (m.id ≠ (aiLoadingMessage now).id))
      = s.messages ++ [userMessage now question] := by
  have hx : ∀ m ∈ s.messages ++ [userMessage now question], m.id ≠ (aiLoadingMessage now).id := by
    intro m hm
    rcases List.mem_append.mp hm with h1 | h2
    · simpa [aiLoadingMessage] using hfresh m h1
    · rw [List.mem_singleton] at h2
      subst h2
      simp [userMessage, aiLoadingMessage]
  rw [List.filter_append, filter_fresh _ _ hx]
  simp [aiLoadingMessage]

/-- The messages of a failed submission: prior list, user turn, error
turn. -/
theorem submit_messages_error (now : ℚ) (question : String) (s : AppState)
    (hfresh : ∀ m ∈ s.messages, m.id ≠ MessageId.aiLoading now) :
    (handleSubmitQuestion now question .error s).state.messages
      = s.messages ++ [userMessage now question, aiErrorMessage now] := by
  show (s.messages ++ [userMessage now question] ++ [aiLoadingMessage now]).filter
        (fun m => decide (m.id ≠ (aiLoadingMessage now).id)) ++ [aiErrorMessage now]
      = _
  rw [submit_filter_step now question s hfresh]
  simp

/-- The messages of a resolved submission: prior list, user turn, then
either the informational turn and the follow-up prompt, or the single
answer turn. -/
theorem submit_messages_ok (now : ℚ) (question : String) (result : AIOutput) (s : AppState)
    (hfresh : ∀ m ∈ s.messages, m.id ≠ MessageId.aiLoading now) :
    (handleSubmitQuestion now question (.ok result) s).state.messages
      = s.messages ++ [userMessage now question]
        ++ (if jsTruthyStr result.followUpQuestion then
              [aiInfoMessage now
                (if result.answer ≠ "" ∧ result.answer ≠ result.followUpQuestion.getD ""
                 then result.answer else needMoreInformationText),
               aiFollowUpMessage now (result.followUpQuestion.getD "")]
            else
              [aiResponseMessage now
                (withSections result.answer result.healthInsights result.recommendations)]) := by
  by_cases hfu : jsTruthyStr result.followUpQuestion = true
  · rw [if_pos hfu]
    simp only [handleSubmitQuestion, hfu, if_true]
    rw [submit_filter_step now question s hfresh]
    simp
  · rw [if_neg hfu]
    simp only [handleSubmitQuestion, hfu, if_false, Bool.false_eq_true]
    rw [submit_filter_step now question s hfresh]

/-! ## Claim C2: submission turn discipline -/

/-- Claim C2: for every non-empty question and every settled collaborator
outcome, `handleSubmitQuestion` appends exactly one user turn followed only
by assistant turns, none of them pending — the intermediate pending turn is
always removed — and among the appended assistant turns exactly one is a
terminal answer/error turn (not a follow-up prompt). -/
theorem handleSubmitQuestion_turns (now : ℚ) (question : String) (outcome : AIOutcome)
    (s : AppState) (hq : question ≠ "")
    (hfresh : ∀ m ∈ s.messages, m.id ≠ MessageId.aiLoading now) :
    ∃ tail : List ChatMessage,
      (handleSubmitQuestion now question outcome s).state.messages =
        s.messages ++ userMessage now question :: tail ∧
      tail ≠ [] ∧
      (∀ m ∈ tail, m.sender = .ai ∧ m.isLoading = false) ∧
      tail.countP (fun m => !m.isFollowUpPrompt) = 1 := by
  cases outcome with
  | error =>
    refine ⟨[aiErrorMessage now], ?_, by simp, ?_, ?_⟩
    · rw [submit_messages_error now question s hfresh]
    · intro m hm
      rw [List.mem_singleton] at hm
      subst hm
      exact ⟨rfl, rfl⟩
    · simp [List.countP_cons, aiErrorMessage]
  | ok result =>
    by_cases hfu : jsTruthyStr result.followUpQuestion = true
    · refine ⟨[aiInfoMessage now
          (if result.answer ≠ "" ∧ result.answer ≠ result.followUpQuestion.getD ""
           then result.answer else needMoreInformationText),
          aiFollowUpMessage now (result.followUpQuestion.getD "")], ?_, by simp, ?_, ?_⟩
      · rw [submit_messages_ok now question result s hfresh, if_pos hfu]
        simp
      · intro m hm
        rcases List.mem_cons.mp hm with rfl | hm'
        · exact ⟨rfl, rfl⟩
        · rw [List.mem_singleton] at hm'
          subst hm'
          exact ⟨rfl, rfl⟩
      · simp [List.countP_cons, aiInfoMessage, aiFollowUpMessage]
    · refine ⟨[aiResponseMessage now
          (withSections result.answer result.healthInsights result.recommendations)],
          ?_, by simp, ?_, ?_⟩
      · rw [submit_messages_ok now question result s hfresh, if_neg hfu]
        simp
      · intro m hm
        rw [List.mem_singleton] at hm
        subst hm
        exact ⟨rfl, rfl⟩
      · simp [List.countP_cons, aiResponseMessage]

/-- A concrete empty-session state used by the witnesses. -/
def emptyAppState : AppState :=
  { messages := [], isLoading := false, userProfile := {}, vitalSigns := [],
    isProfileModalOpen := false, currentAiFollowUpKey := none,
    lastUserQuestionForFollowUp := none }

/-- Witness for Claim C2 at a concrete question and a plain-answer
outcome. -/
theorem handleSubmitQuestion_turns_witness :
    ∃ tail : List ChatMessage,
      (handleSubmitQuestion 0 "hello" (.ok { answer := "hi" }) emptyAppState).state.messages =
        emptyAppState.messages ++ userMessage 0 "hello" :: tail ∧
      tail ≠ [] ∧
      (∀ m ∈ tail, m.sender = .ai ∧ m.isLoading = false) ∧
      tail.countP (fun m => !m.isFollowUpPrompt) = 1 :=
  handleSubmitQuestion_turns 0 "hello" (.ok { answer := "hi" }) emptyAppState
    (by decide) (by simp [emptyAppState])

/-! ## Claim C3: the request carries the latest reading -/

/-- Claim C3: for every reachable vital-signs store, the single request
built by `handleSubmitQuestion` carries as `vitalSigns` the reading with
the maximum timestamp when the store is non-empty, and none when the store
is empty. -/
theorem handleSubmitQuestion_latest_vitals (now : ℚ) (question : String) (outcome : AIOutcome)
    (s : AppState) (h : ReachableVitalSigns s.vitalSigns) :
    (handleSubmitQuestion now question outcome s).calls
        = [buildInput question s.userProfile s.vitalSigns] ∧
    (s.vitalSigns = [] → (buildInput question s.userProfile s.vitalSigns).vitalSigns = none) ∧
    (∀ v, (buildInput question s.userProfile s.vitalSigns).vitalSigns = some v →
      v ∈ s.vitalSigns ∧ ∀ w ∈ s.vitalSigns, w.timestamp ≤ v.timestamp) := by
  refine ⟨?_, ?_, reachable_latest question s.userProfile s.vitalSigns h⟩
  · cases outcome with
    | error => rfl
    | ok result =>
      by_cases hfu : jsTruthyStr result.followUpQuestion = true
      · simp [handleSubmitQuestion, hfu]
      · simp [handleSubmitQuestion, hfu]
  · intro h0
    rw [h0]
    rfl

/-- A reading stamped at time 1. -/
def readingA : VitalSigns := { timestamp := 1 }

/-- A reading stamped at time 2, carrying a heart rate. -/
def readingB : VitalSigns := { timestamp := 2, heartRate := some (.num 72) }

/-- A session state whose store holds `readingB` (newest) then
`readingA`. -/
def vitalsAppState : AppState :=
  { emptyAppState with vitalSigns := [readingB, readingA] }

/-- Witness for Claim C3 at a concrete reachable two-reading store. -/
theorem handleSubmitQuestion_latest_vitals_witness :
    (handleSubmitQuestion 3 "q" .error vitalsAppState).calls
        = [buildInput "q" vitalsAppState.userProfile vitalsAppState.vitalSigns] ∧
      readingB ∈ vitalsAppState.vitalSigns ∧
      ∀ w ∈ vitalsAppState.vitalSigns, w.timestamp ≤ readingB.timestamp := by
  have hreach : ReachableVitalSigns vitalsAppState.vitalSigns := by
    show ReachableVitalSigns [readingB, readingA]
    have h1 : ReachableVitalSigns [readingA] :=
      ReachableVitalSigns.update readingA [] ReachableVitalSigns.nil (by simp)
    exact ReachableVitalSigns.update readingB [readingA] h1
      (by intro w hw; rw [List.mem_singleton] at hw; subst hw; decide)
  have h := handleSubmitQuestion_latest_vitals 3 "q" .error vitalsAppState hreach
  exact ⟨h.1, (h.2.2 readingB rfl).1, (h.2.2 readingB rfl).2⟩

/-! ## Claim C5: failure semantics of a submission -/

/-- Claim C5: when the collaborator call rejects, the pending turn is
removed, exactly one assistant turn carrying the generic failure text is
appended after the user turn, exactly one collaborator request was made,
one toast is emitted, and the profile and vital-signs stores are
unchanged. -/
theorem handleSubmitQuestion_error_spec (now : ℚ) (question : String) (s : AppState)
    (hfresh : ∀ m ∈ s.messages, m.id ≠ MessageId.aiLoading now) :
    (handleSubmitQuestion now question .error s).state.messages
        = s.messages ++ [userMessage now question, aiErrorMessage now] ∧
    (aiErrorMessage now).text = submitErrorText ∧
    (aiErrorMessage now).sender = .ai ∧
    (handleSubmitQuestion now question .error s).calls
        = [buildInput question s.userProfile s.vitalSigns] ∧
    (handleSubmitQuestion now question .error s).calls.length = 1 ∧
    (handleSubmitQuestion now question .error s).toasts = [ToastKind.errorToast] ∧
    (handleSubmitQuestion now question .error s).state.userProfile = s.userProfile ∧
    (handleSubmitQuestion now question .error s).state.vitalSigns = s.vitalSigns :=
  ⟨submit_messages_error now question s hfresh, rfl, rfl, rfl, rfl, rfl, rfl, rfl⟩

/-- Witness for Claim C5 at a concrete failed submission. -/
theorem handleSubmitQuestion_error_spec_witness :
    (handleSubmitQuestion 0 "hello" .error emptyAppState).state.messages
        = emptyAppState.messages ++ [userMessage 0 "hello", aiErrorMessage 0] ∧
      (handleSubmitQuestion 0 "hello" .error emptyAppState).toasts = [ToastKind.errorToast] :=
  ⟨(handleSubmitQuestion_error_spec 0 "hello" emptyAppState (by simp [emptyAppState])).1,
   (handleSubmitQuestion_error_spec 0 "hello" emptyAppState (by simp [emptyAppState])).2.2.2.2.2.1⟩

/-! ## Profile save and modal close -/

/-- The acknowledgment turn appended before the refine call (flagged
`isFollowUpPrompt` in the source). -/
def profileUpdatedMessage (now : ℚ) : ChatMessage :=
  { id := .systemProfileUpdated now, text := profileUpdatedText, sender := .ai, timestamp := now,
    isFollowUpPrompt := true }

/-- The pending turn of the refine call. -/
def refineLoadingMessage (now : ℚ) : ChatMessage :=
  { id := .aiLoadingRefine now, text := refiningText, sender := .ai, timestamp := now,
    isLoading := true }

/-- The refined answer turn. -/
def refinedResponseMessage (now : ℚ) (text : String) : ChatMessage :=
  { id := .aiRefinedResponse now, text := text, sender := .ai, timestamp := now }

/-- The further follow-up prompt turn of the refine path. -/
def refinedFollowUpMessage (now : ℚ) (text : String) : ChatMessage :=
  { id := .aiRefinedFollowup now, text := text, sender := .ai, timestamp := now,
    isFollowUpPrompt := true }

/-- The error turn of a failed refine call. -/
def refineErrorMessage (now : ℚ) : ChatMessage :=
  { id := .aiErrorRefine now, text := refineErrorText, sender := .ai, timestamp := now }

/-- The acknowledgment turn of a profile save with no pending follow-up. -/
def profileAckMessage (now : ℚ) : ChatMessage :=
  { id := .systemProfileAck now, text := profileAckText, sender := .ai, timestamp := now }

/-- The neutral turn appended on cancel while a follow-up is pending
(flagged `isFollowUpPrompt` in the source). -/
def cancelFollowUpMessage (now : ℚ) : ChatMessage :=
  { id := .aiCancelFollowup now, text := cancelFollowUpText, sender := .ai, timestamp := now,
    isFollowUpPrompt := true }

/-- `handleSaveProfile(newProfileData)`: stores the new profile and closes
the modal; when `lastUserQuestionForFollowUp` is truthy, appends the update
acknowledgment and a pending turn, rebuilds the request from the new
profile and the latest reading, awaits the refine call, applies the same
success/failure handling as a submission (surfacing a further follow-up
with a toast but not reopening the editor), and in `finally` clears the
loading flag and both pending-follow-up components; otherwise appends a
generic acknowledgment only when the profile changed by value
(`JSON.stringify` comparison, modelled as structural equality — the two
agree on these records since fields are compared in declaration order and
absent fields are dropped on both sides). -/
def handleSaveProfile (now : ℚ) (newProfileData : UserProfile) (outcome : AIOutcome)
    (s : AppState) : StepResult :=
  let oldProfile := s.userProfile
  let s1 : AppState := { s with userProfile := newProfileData, isProfileModalOpen := false }
  if jsTruthyStr s1.lastUserQuestionForFollowUp then
    let question := s1.lastUserQuestionForFollowUp.getD ""
    let updatedInput := buildInput question newProfileData s1.vitalSigns
    let s2 : AppState := { s1 with
      messages := s1.messages ++ [profileUpdatedMessage now], isLoading := true }
    let s3 : AppState := { s2 with messages := s2.messages ++ [refineLoadingMessage now] }
    match outcome with
    | .ok result =>
      let s4 : AppState := { s3 with
        messages := s3.messages.filter (fun m => decide (m.id ≠ (refineLoadingMessage now).id)) }
      let base := if result.answer ≠ "" then result.answer else refineThanksText
      let responseText := withSections base result.healthInsights result.recommendations
      let s5 : AppState := { s4 with
        messages := s4.messages ++ [refinedResponseMessage now responseText] }
      if jsTruthyStr result.followUpQuestion then
        { state := { s5 with
            messages := s5.messages ++ [refinedFollowUpMessage now (result.followUpQuestion.getD "")]
            isLoading := false
            lastUserQuestionForFollowUp := none
            currentAiFollowUpKey := none }
          calls := [updatedInput], toasts := [.furtherInfoToast] }
      else
        { state := { s5 with
            isLoading := false
            lastUserQuestionForFollowUp := none
            currentAiFollowUpKey := none }
          calls := [updatedInput], toasts := [] }
    | .error =>
      let s4 : AppState := { s3 with
        messages := s3.messages.filter (fun m => decide (m.id ≠ (refineLoadingMessage now).id))
          ++ [refineErrorMessage now] }
      { state := { s4 with
          isLoading := false
          lastUserQuestionForFollowUp := none
          currentAiFollowUpKey := none }
        calls := [updatedInput], toasts := [.refineErrorToast] }
  else
    if oldProfile ≠ newProfileData then
      { state := { s1 with messages := s1.messages ++ [profileAckMessage now] },
        calls := [], toasts := [] }
    else
      { state := s1, calls := [], toasts := [] }

/-- A runtime value stored under a profile key. -/
inductive ProfileValue
  | num (v : ℚ)
  | str (s : String)
  | gen (g : Gender)
  | contact (c : EmergencyContact)
deriving DecidableEq

/-- Property access `profile[key]` on a `UserProfile` object. -/
def UserProfile.field (p : UserProfile) : AISuggestedKey → Option ProfileValue
  | .age => p.age.map .num
  | .weight => p.weight.map .num
  | .height => p.height.map .num
  | .gender => p.gender.map .gen
  | .medicalHistory => p.medicalHistory.map .str
  | .currentMedications => p.currentMedications.map .str
  | .allergies => p.allergies.map .str
  | .lifestyle => p.lifestyle.map .str
  | .symptoms => p.symptoms.map .str
  | .emergencyContact => p.emergencyContact.map .contact

/-- `relevantProfileData && relevantProfileData.toString().trim() !== ''`:
absent values and the number 0 are falsy; `toString` of a non-zero number
and of the gender strings is non-blank; `toString` of the contact object is
the non-blank `[object Object]`; a string passes iff it is non-empty and
not whitespace-only. -/
def profileFieldFilled (p : UserProfile) (k : AISuggestedKey) : Bool :=
  match p.field k with
  | none => false
  | some (.num v) => decide (v ≠ 0)
  | some (.str s) => decide (s ≠ "") && decide (s.trim ≠ "")
  | some (.gen _) => true
  | some (.contact _) => true

/-- `handleCloseProfileModal()`: closes the modal; when both
`lastUserQuestionForFollowUp` and `currentAiFollowUpKey` are truthy (every
key name is a non-empty string, so truthiness is presence) and the profile
field named by the key is not filled, appends the neutral cancel turn;
always clears both pending-follow-up components; makes no collaborator
call. -/
def handleCloseProfileModal (now : ℚ) (s : AppState) : StepResult :=
  let s1 : AppState := { s with isProfileModalOpen := false }
  let s2 : AppState :=
    match s1.lastUserQuestionForFollowUp, s1.currentAiFollowUpKey with
    | some q, some k =>
      if decide (q ≠ "") then
        if profileFieldFilled s1.userProfile k then s1
        else { s1 with messages := s1.messages ++ [cancelFollowUpMessage now] }
      else s1
    | _, _ => s1
  { state := { s2 with lastUserQuestionForFollowUp := none, currentAiFollowUpKey := none },
    calls := [], toasts := [] }

/-! ## Claim C4: save always clears the pending follow-up -/

/-- Claim C4: for every save performed while the pending follow-up is set
(a truthy stored question), both components of the pending follow-up are
cleared by `handleSaveProfile`, whether the refine call resolves or
rejects. -/
theorem handleSaveProfile_clears_followup (now : ℚ) (newProfileData : UserProfile)
    (outcome : AIOutcome) (s : AppState)
    (h : jsTruthyStr s.lastUserQuestionForFollowUp = true) :
    (handleSaveProfile now newProfileData outcome s).state.lastUserQuestionForFollowUp = none ∧
    (handleSaveProfile now newProfileData outcome s).state.currentAiFollowUpKey = none := by
  cases outcome with
  | error => simp [handleSaveProfile, h]
  | ok result =>
    by_cases hfu : jsTruthyStr result.followUpQuestion = true
    · simp [handleSaveProfile, h, hfu]
    · simp [handleSaveProfile, h, hfu]

/-- A session state holding a pending follow-up on the age field. -/
def pendingAppState : AppState :=
  { emptyAppState with
    lastUserQuestionForFollowUp := some "What should my blood pressure be?",
    currentAiFollowUpKey := some .age }

/-- Witness for Claim C4 at a concrete pending state, rejecting refine
call. -/
theorem handleSaveProfile_clears_followup_witness :
    (handleSaveProfile 1 {} .error pendingAppState).state.lastUserQuestionForFollowUp = none ∧
    (handleSaveProfile 1 {} .error pendingAppState).state.currentAiFollowUpKey = none :=
  handleSaveProfile_clears_followup 1 {} .error pendingAppState (by decide)

/-! ## Claim C6: cancel with an empty suggested field -/

/-- Claim C6: closing the profile editor via cancel while the pending
follow-up is set and the suggested field is still empty appends exactly one
neutral cancel turn, clears both pending-follow-up components, and makes no
collaborator call. -/
theorem handleCloseProfileModal_cancel (now : ℚ) (s : AppState) (q : String)
    (k : AISuggestedKey)
    (hq : s.lastUserQuestionForFollowUp = some q) (hqne : q ≠ "")
    (hk : s.currentAiFollowUpKey = some k)
    (hempty : profileFieldFilled s.userProfile k = false) :
    (handleCloseProfileModal now s).state.messages
        = s.messages ++ [cancelFollowUpMessage now] ∧
    (handleCloseProfileModal now s).state.lastUserQuestionForFollowUp = none ∧
    (handleCloseProfileModal now s).state.currentAiFollowUpKey = none ∧
    (handleCloseProfileModal now s).calls = [] := by
  refine ⟨?_, rfl, rfl, rfl⟩
  simp [handleCloseProfileModal, hq, hk, hqne, hempty]

/-- Witness for Claim C6: cancel at a concrete pending state with an empty
age field. -/
theorem handleCloseProfileModal_cancel_witness :
    (handleCloseProfileModal 2 pendingAppState).state.messages
        = pendingAppState.messages ++ [cancelFollowUpMessage 2] ∧
    (handleCloseProfileModal 2 pendingAppState).state.lastUserQuestionForFollowUp = none ∧
    (handleCloseProfileModal 2 pendingAppState).state.currentAiFollowUpKey = none ∧
    (handleCloseProfileModal 2 pendingAppState).calls = [] :=
  handleCloseProfileModal_cancel 2 pendingAppState "What should my blood pressure be?" .age
    rfl (by decide) rfl rfl

/-! ## Manual vital-sign entry (vital-signs tracker component) -/

/-- Local state of the tracker component used by `handleManualEntry`:
`manualVitals` holds the values typed so far (the input `onChange` always
stores a number, `parseFloat(..) || 0`, for whichever key is selected,
including `bloodPressure`), and `selectedVitalType` is the selected kind. -/
structure TrackerState where
  manualVitals : VitalKey → Option ℚ
  selectedVitalType : VitalKey
  isManualEntryOpen : Bool

/-- Result of `handleManualEntry`: updated tracker state, the reading
passed to `onVitalSignsUpdate` when the entry is accepted, and the toasts
emitted. -/
structure ManualEntryResult where
  tracker : TrackerState
  emitted : Option VitalSigns
  toasts : List ToastKind

/-- JavaScript truthiness of an optional number: present and non-zero (the
stored values are never NaN, since `parseFloat(..) || 0` replaces NaN with
0). -/
def jsTruthyNum (x : Option ℚ) : Bool :=
  match x with
  | none => false
  | some v => decide (v ≠ 0)

/-- The object `{ timestamp: Date.now(), [selectedVitalType]: value }` with
the computed key written after `timestamp` (so selecting the timestamp key
itself would overwrite it); the stored value is the typed number. -/
def mkManualVitals (now : ℚ) (k : VitalKey) (v : ℚ) : VitalSigns :=
  match k with
  | .timestamp => { timestamp := v }
  | .heartRate => { timestamp := now, heartRate := some (.num v) }
  | .bloodPressure => { timestamp := now, bloodPressure := some (.num v) }
  | .temperature => { timestamp := now, temperature := some (.num v) }
  | .oxygenSaturation => { timestamp := now, oxygenSaturation := some (.num v) }
  | .bloodGlucose => { timestamp := now, bloodGlucose := some (.num v) }
  | .steps => { timestamp := now, steps := some (.num v) }
  | .sleepHours => { timestamp := now, sleepHours := some (.num v) }

/-- `handleManualEntry()`: when `manualVitals[selectedVitalType]` is falsy
(absent or 0), emits the value-required toast and changes nothing else;
otherwise builds the one-field reading stamped `Date.now()`, passes it to
`onVitalSignsUpdate`, closes the dialog, resets `manualVitals` and emits
the success toast. -/
def handleManualEntry (now : ℚ) (t : TrackerState) : ManualEntryResult :=
  if jsTruthyNum (t.manualVitals t.selectedVitalType) then
    { tracker := { t with isManualEntryOpen := false, manualVitals := fun _ => none }
      emitted := some (mkManualVitals now t.selectedVitalType
        ((t.manualVitals t.selectedVitalType).getD 0))
      toasts := [.vitalsUpdatedToast] }
  else
    { tracker := t, emitted := none, toasts := [.valueRequiredToast] }

/-- The effect of a manual entry on the parent store: `onVitalSignsUpdate`
(which prepends) is invoked exactly when a reading was emitted. -/
def applyVitalsEmit (e : Option VitalSigns) (store : List VitalSigns) : List VitalSigns :=
  match e with
  | none => store
  | some v => handleVitalSignsUpdate v store

/-! ## Claim C8: manual entry validation and effect -/

/-- Claim C8: a manual entry changes the store only when the entered value
for the selected kind is present and non-zero; the value 0 is rejected like
a missing value, with a validation toast and no store change; an accepted
entry prepends exactly one reading stamped with the current time and
carrying exactly the one selected measurement field. -/
theorem handleManualEntry_spec (now : ℚ) (t : TrackerState) (store : List VitalSigns)
    (hk : t.selectedVitalType ≠ .timestamp) :
    ((t.manualVitals t.selectedVitalType = none ∨ t.manualVitals t.selectedVitalType = some 0) →
      (handleManualEntry now t).emitted = none ∧
      applyVitalsEmit (handleManualEntry now t).emitted store = store ∧
      (handleManualEntry now t).toasts = [.valueRequiredToast]) ∧
    (∀ v : ℚ, t.manualVitals t.selectedVitalType = some v → v ≠ 0 →
      ∃ r : VitalSigns, (handleManualEntry now t).emitted = some r ∧
        applyVitalsEmit (handleManualEntry now t).emitted store = r :: store ∧
        r.timestamp = now ∧
        r.field t.selectedVitalType = some (.num v) ∧
        ∀ k : VitalKey, k ≠ t.selectedVitalType → k ≠ .timestamp → r.field k = none) := by
  constructor
  · intro h
    have hfalse : jsTruthyNum (t.manualVitals t.selectedVitalType) = false := by
      rcases h with h | h <;> simp [jsTruthyNum, h]
    simp [handleManualEntry, hfalse, applyVitalsEmit]
  · intro v hv hvne
    refine ⟨mkManualVitals now t.selectedVitalType v, ?_, ?_, ?_, ?_, ?_⟩
    · simp [handleManualEntry, hv, jsTruthyNum, hvne]
    · simp [handleManualEntry, hv, jsTruthyNum, hvne, applyVitalsEmit, handleVitalSignsUpdate]
    · revert hk
      cases t.selectedVitalType <;> intro hk <;> simp_all [mkManualVitals]
    · revert hk
      cases t.selectedVitalType <;> intro hk <;> simp_all [mkManualVitals, VitalSigns.field]
    · intro k hk1 hk2
      revert hk hk1 hk2
      cases t.selectedVitalType <;> cases k <;> intro hk hk1 hk2 <;>
        simp_all [mkManualVitals, VitalSigns.field]

/-- A tracker state with 72 typed under the selected heart-rate kind. -/
def heartRateEntryState : TrackerState :=
  { manualVitals := fun k => if k = .heartRate then some 72 else none,
    selectedVitalType := .heartRate, isManualEntryOpen := true }

/-- Witness for Claim C8: an accepted heart-rate entry at time 5 prepends
one single-field reading. -/
theorem handleManualEntry_spec_witness :
    ∃ r : VitalSigns, (handleManualEntry 5 heartRateEntryState).emitted = some r ∧
      applyVitalsEmit (handleManualEntry 5 heartRateEntryState).emitted [] = r :: [] ∧
      r.timestamp = 5 ∧
      r.field heartRateEntryState.selectedVitalType = some (.num 72) ∧
      ∀ k : VitalKey, k ≠ heartRateEntryState.selectedVitalType → k ≠ .timestamp →
        r.field k = none :=
  (handleManualEntry_spec 5 heartRateEntryState [] (by decide)).2 72 (by decide) (by decide)

end MedGenie
